import Mathlib

/-!
# Verification of the net-cat chat server (src/main.go)

Shallow embedding of the connection/session manager and broadcast core of the
Go TCP chat server. The Go data is modelled as follows:

* `map[string]*Client` (the registry, field `Clients`) becomes a `List Client`
  keyed by the `username` field (the Go code maintains the invariant that the
  map key equals `Client.Username`).
* `chan string` (the per-client outbound channel `Out`) becomes a `List String`
  of delivered messages together with a `ready : Bool` flag: the Go channel is
  unbuffered (`make(chan string)`), so a non-blocking send in `broadcast`'s
  `select` succeeds exactly when the client's consumer goroutine
  (`sendMessagesToClient`) is currently waiting on the channel.  `ready` models
  that readiness at the instant of the broadcast.
* `[]Message` (the history log, field `Messages`) becomes a `List Message`.
* `time.Time` values formatted with layout `"2006-01-02 15:04:05"` become an
  explicit `Timestamp` record with a zero-padded formatter.

Operations are translated one-to-one from src/main.go and theorems settle the
spec claims about them.
-/

namespace NetCat

/-- `MaxClients` constant from src/main.go line 16. -/
def MaxClients : Nat := 2

/-- Whitespace predicate used by Go's `strings.TrimSpace` (ASCII subset). -/
def goIsSpace (c : Char) : Bool :=
  c = ' ' || c = '\t' || c = '\n' || c = '\x0b' || c = '\x0c' || c = '\r'

/-- Model of Go's `strings.TrimSpace`: remove leading and trailing whitespace. -/
def trimSpace (s : String) : String :=
  ⟨((s.data.dropWhile goIsSpace).reverse.dropWhile goIsSpace).reverse⟩

/-- A wall-clock timestamp, the data `time.Time` contributes to the layout
`"2006-01-02 15:04:05"`. -/
structure Timestamp where
  year : Nat
  month : Nat
  day : Nat
  hour : Nat
  minute : Nat
  second : Nat
deriving DecidableEq

/-- The ASCII digit character for `n % 10`. -/
def digitChar (n : Nat) : Char := Char.ofNat (48 + n % 10)

/-- Two-digit zero-padded decimal, as Go's layout components `01`, `02`, `15`,
`04`, `05` render month, day, hour, minute, second. -/
def pad2 (n : Nat) : String := ⟨[digitChar (n / 10), digitChar n]⟩

/-- Four-digit zero-padded decimal, as Go's layout component `2006` renders the
year. -/
def pad4 (n : Nat) : String :=
  ⟨[digitChar (n / 1000), digitChar (n / 100), digitChar (n / 10), digitChar n]⟩

/-- Model of `t.Format("2006-01-02 15:04:05")`. -/
def formatTimestamp (t : Timestamp) : String :=
  pad4 t.year ++ "-" ++ pad2 t.month ++ "-" ++ pad2 t.day ++ " " ++
    pad2 t.hour ++ ":" ++ pad2 t.minute ++ ":" ++ pad2 t.second

/-- `Message` struct from src/main.go lines 39-43. -/
structure Message where
  timestamp : Timestamp
  client : String
  content : String
deriving DecidableEq

/-- The chat-line format used both for live broadcast (line 284) and for the
history replay (line 198):
`fmt.Sprintf("[%s][%s]: %s\n", ts.Format("2006-01-02 15:04:05"), user, text)`. -/
def formatChat (m : Message) : String :=
  "[" ++ formatTimestamp m.timestamp ++ "][" ++ m.client ++ "]: " ++ m.content ++ "\n"

/-- `Client` struct from src/main.go lines 47-51.  `out` is the list of
messages successfully sent on the `Out` channel; `ready` tells whether the
unbuffered channel currently has a waiting receiver (see module comment). -/
structure Client where
  username : String
  out : List String
  ready : Bool
deriving DecidableEq

/-- The shared server state: the `Clients` registry and the `Messages` history
log of the `Server` struct (src/main.go lines 56-64). -/
structure Server where
  clients : List Client
  messages : List Message
deriving DecidableEq

/-- One loop iteration of `broadcast` (src/main.go lines 295-303) for a single
client: skip the client whose `Username` equals `sender`; otherwise the
`select` enqueues when the channel is ready and drops the message otherwise. -/
def deliver (message sender : String) (c : Client) : Client :=
  if c.username = sender then c
  else if c.ready then { c with out := c.out ++ [message] } else c

/-- The diagnostic emitted by `broadcast`'s `default` branch (line 302):
`log.Printf("Client %s is slow. Dropping message.", client.Username)`. -/
def slowLogLine (u : String) : String :=
  "Client " ++ u ++ " is slow. Dropping message."

/-- Result of a `broadcast` call: the updated server state and the diagnostic
log lines produced for dropped recipients. -/
structure BroadcastResult where
  server : Server
  log : List String
deriving DecidableEq

/-- `broadcast(message, sender)` from src/main.go lines 291-305: under
`ClientsLock`, for every registered client whose username differs from
`sender`, attempt a non-blocking enqueue on its `Out` channel; on a non-ready
channel the message is dropped and a diagnostic line is logged. -/
def broadcast (s : Server) (message sender : String) : BroadcastResult :=
  { server := { s with clients := s.clients.map (deliver message sender) }
    log := (s.clients.filter (fun c => !(c.username = sender) && !c.ready)).map
      (fun c => slowLogLine c.username) }

/-- `fmt.Sprintf("[INFO]: %s joined the chat\n", username)` (line 193). -/
def joinNotice (u : String) : String := "[INFO]: " ++ u ++ " joined the chat\n"

/-- `fmt.Sprintf("[INFO]: %s left the chat\n", username)` (line 213). -/
def leaveNotice (u : String) : String := "[INFO]: " ++ u ++ " left the chat\n"

/-- `fmt.Sprintf("[INFO]: %s a changé son nom pour %s\n", oldName, newName)`
(line 263) — the rename notice the code formats, in French. -/
def renameNotice (oldName newName : String) : String :=
  "[INFO]: " ++ oldName ++ " a changé son nom pour " ++ newName ++ "\n"

/-- `if _, exists := s.Clients[u]; exists` — membership in the registry map. -/
def hasClient (s : Server) (u : String) : Bool :=
  s.clients.any (fun c => c.username = u)

/-- Outcome of one connection attempt against the server. -/
inductive ConnectOutcome where
  | serverFull
  | invalidUsername
  | usernameTaken
  | joined (username : String)
deriving DecidableEq

/-- Result of a connection attempt: the outcome, the server state afterwards,
the lines written directly to this connection after the banner and name prompt
(rejection line, or the history replay on success), and whether the connection
was closed without a session starting. -/
structure ConnectResult where
  outcome : ConnectOutcome
  server : Server
  written : List String
  closed : Bool
deriving DecidableEq

/-- The handshake of `handleClient` (src/main.go lines 154-206), after the
banner and `Enter your name: ` prompt, given the raw bytes read for the name:

* trim whitespace; empty ⇒ `Invalid username. Disconnecting...` and close;
* username already in the registry ⇒ `Username already taken. Disconnecting...`
  and close, leaving the registry untouched;
* otherwise insert a fresh client (`Out` empty and not yet drained: the
  `sendMessagesToClient` goroutine only starts at line 203, after the join
  broadcast, so the new channel is not ready during that broadcast), broadcast
  the join notice with pseudo-sender `"INFO"`, and replay the history log
  directly to the connection. -/
def handleClient (s : Server) (raw : String) : ConnectResult :=
  let username := trimSpace raw
  if username = "" then
    { outcome := .invalidUsername, server := s
      written := ["Invalid username. Disconnecting...\n"], closed := true }
  else if hasClient s username then
    { outcome := .usernameTaken, server := s
      written := ["Username already taken. Disconnecting...\n"], closed := true }
  else
    let s1 : Server :=
      { s with clients := s.clients ++ [{ username := username, out := [], ready := false }] }
    let s2 := (broadcast s1 (joinNotice username) "INFO").server
    { outcome := .joined username, server := s2
      written := s2.messages.map formatChat, closed := false }

/-- One connection attempt as the `startTCP` accept loop sees it (src/main.go
lines 101-121): when `len(s.Clients) >= MaxClients-1` the connection is
answered with `Server is full. Try again later.` and closed; otherwise
`handleClient` runs the handshake on the submitted name. -/
def connect (maxClients : Nat) (s : Server) (raw : String) : ConnectResult :=
  if maxClients - 1 ≤ s.clients.length then
    { outcome := .serverFull, server := s
      written := ["Server is full. Try again later.\n"], closed := true }
  else
    handleClient s raw

/-- How one iteration of the read loop left the session. -/
inductive LineResult where
  /-- The loop continues reading. -/
  | active
  /-- `/exit`: the read loop returned and `handleClient` ran the teardown. -/
  | exited
  /-- Successful rename: the goroutine blocks forever re-acquiring
  `ClientsLock` inside `broadcast` while already holding it. -/
  | deadlocked
deriving DecidableEq

/-- Result of feeding one line to a session's read loop. -/
structure StepResult where
  result : LineResult
  server : Server
  reply : List String
  log : List String
deriving DecidableEq

/-- The registry mutation of a successful rename (src/main.go lines 257-260):
`delete(s.Clients, old); client.Username = new; s.Clients[new] = client`. -/
def renameClient (s : Server) (oldName newName : String) : Server :=
  let rekey := fun (c : Client) =>
    if c.username = oldName then { c with username := newName } else c
  { s with clients := s.clients.map rekey }

/-- One iteration of `receiveMessagesFromClient` (src/main.go lines 228-287)
for the session currently registered as `u`, on raw input `raw`, plus — for the
`/exit` case — the teardown that `handleClient` performs after the read loop
returns (lines 208-214: remove from the registry under lock, then broadcast the
leave notice; the connection is closed by the deferred `conn.Close()`).

The `/name` command: an empty new name or a taken new name produce inline
replies and the loop continues.  On the success path the code mutates the
registry (lines 257-260) and then, at line 263 and **still holding
`ClientsLock` (locked line 247, unlocked only at line 268)**, calls
`broadcast`, which immediately re-acquires `ClientsLock` (line 292).  Go's
`sync.Mutex` is not reentrant, so this blocks forever: the rename notice is
never sent and the lock is never released (`.deadlocked`).

Any other line is recorded in the history log and broadcast, excluding the
sender, in the chat-line format. -/
def handleLine (s : Server) (u : String) (now : Timestamp) (raw : String) : StepResult :=
  let message := trimSpace raw
  if "/name ".data.isPrefixOf message.data then
    let newName := trimSpace ⟨message.data.drop 6⟩
    if newName = "" then
      { result := .active, server := s, reply := ["Le nouveau nom est invalide.\n"], log := [] }
    else if hasClient s newName then
      { result := .active, server := s, reply := ["Ce nom est déjà pris.\n"], log := [] }
    else
      { result := .deadlocked, server := renameClient s u newName, reply := [], log := [] }
  else if message = "/exit" then
    let s1 : Server := { s with clients := s.clients.filter (fun c => !(c.username = u)) }
    let b := broadcast s1 (leaveNotice u) "INFO"
    { result := .exited, server := b.server, reply := [], log := b.log }
  else
    let msg : Message := { timestamp := now, client := u, content := message }
    let s1 : Server := { s with messages := s.messages ++ [msg] }
    let b := broadcast s1 (formatChat msg) u
    { result := .active, server := b.server, reply := [], log := b.log }

/-- Operations on the non-reentrant `sync.Mutex` `ClientsLock`. -/
inductive LockOp where
  | lock
  | unlock
deriving DecidableEq

/-- The `ClientsLock` operations, in program order, on the successful-rename
path of `receiveMessagesFromClient`: `Lock` at line 247, then inside
`broadcast` `Lock` at line 292 and its deferred `Unlock` (line 293), then
`Unlock` at line 268. -/
def renameSuccessLockTrace : List LockOp := [.lock, .lock, .unlock, .unlock]

/-- Whether a single goroutine running the given operations against a
non-reentrant mutex requests `Lock` while already holding it — on Go's
`sync.Mutex` such a request blocks forever. -/
def selfDeadlocks : Bool → List LockOp → Bool
  | _, [] => false
  | held, .lock :: rest => if held then true else selfDeadlocks true rest
  | _, .unlock :: rest => selfDeadlocks false rest

end NetCat

/-! ## Helper lemmas -/

namespace NetCat

/-- A decimal digit character is never the letter `I`. -/
lemma digitChar_ne_I (n : Nat) : digitChar n ≠ 'I' := by
  have hn : n % 10 < 10 := Nat.mod_lt _ (by decide)
  unfold digitChar
  revert hn
  generalize n % 10 = k
  intro hn
  interval_cases k <;> decide

/-- A formatted chat line never coincides with a string starting `[INFO]: `:
its second character is the leading digit of the zero-padded year. -/
lemma formatChat_ne_info (m : Message) (x : String) :
    formatChat m ≠ "[INFO]: " ++ x := by
  intro h
  have h1 : some (digitChar (m.timestamp.year / 1000)) = some 'I' :=
    congrArg (fun t : String => t.data[1]?) h
  exact digitChar_ne_I _ (Option.some.inj h1)

/-- Delivering a message to a client never changes its username. -/
lemma deliver_username (m sender : String) (c : Client) :
    (deliver m sender c).username = c.username := by
  unfold deliver
  split
  · rfl
  · split <;> rfl

/-! ## Claim C1 -/

/-- Claim C1 (code_bug): the capacity gate of `startTCP` is off by one.  With
the configured `MaxClients = 2`, starting from an empty registry, client A
registers, but client B's connection attempt is already rejected with the exact
line `Server is full. Try again later.` and closed without registering — the
gate `len(s.Clients) >= MaxClients-1` fires with a single registered session,
although the claim (and the code's own comment, `If the maximum number of
clients is reached`) wants the first `MaxClients` registrations to succeed. -/
theorem capacity_gate_rejects_second_client :
    (connect MaxClients ⟨[], []⟩ "A").outcome = .joined "A" ∧
    (connect MaxClients ⟨[], []⟩ "A").server.clients.map Client.username = ["A"] ∧
    connect MaxClients (connect MaxClients ⟨[], []⟩ "A").server "B" =
      { outcome := .serverFull, server := (connect MaxClients ⟨[], []⟩ "A").server,
        written := ["Server is full. Try again later.\n"], closed := true } := by
  decide

/-! ## Claim C2 -/

/-- Claim C2 counterexample: `broadcast` does not deliver the message to every
currently-registered session with a different username.  Client `B` is
registered and differs from the sender `A`, but its unbuffered `Out` channel
has no waiting receiver (`ready = false`), so the non-blocking send in the
`select` falls through to `default` and `B`'s queue stays empty. -/
theorem broadcast_unready_recipient_not_delivered :
    (broadcast ⟨[⟨"A", [], true⟩, ⟨"B", [], false⟩], []⟩ "hello" "A").server.clients
      = [⟨"A", [], true⟩, ⟨"B", [], false⟩] := by decide

/-- Claim C2 (amended): `broadcast(m, sender)` delivers `m` to the outbound
queue of every currently-registered session whose username differs from
`sender` and whose queue is ready to accept the non-blocking enqueue, and it
never delivers `m` to the queue of a session registered under the username
`sender`. -/
theorem broadcast_delivery_characterization (s : Server) (m sender : String)
    (c : Client) (i : Nat) (hc : s.clients[i]? = some c) :
    (c.username ≠ sender → c.ready = true →
      (broadcast s m sender).server.clients[i]? = some { c with out := c.out ++ [m] }) ∧
    (c.username = sender → (broadcast s m sender).server.clients[i]? = some c) := by
  constructor
  · intro hne hr
    simp [broadcast, List.getElem?_map, hc, deliver, hne, hr]
  · intro heq
    simp [broadcast, List.getElem?_map, hc, deliver, heq]

/-- Witness for `broadcast_delivery_characterization`: in a registry holding
ready sessions `A` and `B`, broadcasting from `A` enqueues onto `B`'s queue and
leaves `A`'s own queue untouched. -/
theorem broadcast_delivery_characterization_witness :
    (broadcast ⟨[⟨"A", [], true⟩, ⟨"B", [], true⟩], []⟩ "m" "A").server.clients[1]?
        = some ⟨"B", ["m"], true⟩ ∧
    (broadcast ⟨[⟨"A", [], true⟩, ⟨"B", [], true⟩], []⟩ "m" "A").server.clients[0]?
        = some ⟨"A", [], true⟩ := by
  have h1 := broadcast_delivery_characterization ⟨[⟨"A", [], true⟩, ⟨"B", [], true⟩], []⟩
    "m" "A" ⟨"B", [], true⟩ 1 (by decide)
  have h2 := broadcast_delivery_characterization ⟨[⟨"A", [], true⟩, ⟨"B", [], true⟩], []⟩
    "m" "A" ⟨"A", [], true⟩ 0 (by decide)
  exact ⟨h1.1 (by decide) rfl, h2.2 rfl⟩

/-! ## Claim C3 -/

/-- Claim C3 (code_bug): the check-and-move of a rename is indeed a single
`ClientsLock` critical section, but that critical section never exits: on the
success path `receiveMessagesFromClient` calls `broadcast` at line 263 while
still holding `ClientsLock` (taken at line 247), and `broadcast` re-acquires
the same non-reentrant mutex at line 292 — a self-deadlock
(`selfDeadlocks false renameSuccessLockTrace = true`).  Concretely, session A
renaming to the free name `C` has its registry entry moved and then blocks
forever (`.deadlocked`) with the lock held, so a concurrent second rename to
`C` blocks forever on `ClientsLock` instead of failing with a name-taken
error. -/
theorem rename_atomicity_deadlock :
    selfDeadlocks false renameSuccessLockTrace = true ∧
    handleLine ⟨[⟨"A", [], true⟩, ⟨"B", [], true⟩], []⟩ "A" ⟨2024, 4, 1, 12, 0, 0⟩ "/name C\n" =
      { result := .deadlocked,
        server := ⟨[⟨"C", [], true⟩, ⟨"B", [], true⟩], []⟩, reply := [], log := [] } := by
  decide

/-! ## Claim C4 -/

/-- Claim C4 (confirmed): on a successful handshake, the history replay written
to the new session is exactly the formatted chat messages appended before the
replay, in append order with no duplicates or gaps, each in the format
`[<timestamp>][<username>]: <content>` plus newline (`formatChat`), and no
join or leave notice is ever part of the replay (notices are broadcast but
never appended to `Messages`, and no chat line can even coincide with a notice
string). -/
theorem replay_exactly_appended_messages (maxClients : Nat) (s : Server) (raw : String)
    (hcap : s.clients.length < maxClients - 1)
    (hname : trimSpace raw ≠ "")
    (hfree : hasClient s (trimSpace raw) = false) :
    (connect maxClients s raw).written = s.messages.map formatChat ∧
    (∀ u, joinNotice u ∉ (connect maxClients s raw).written) ∧
    (∀ u, leaveNotice u ∉ (connect maxClients s raw).written) := by
  have hgate : ¬ (maxClients - 1 ≤ s.clients.length) := by omega
  have hw : (connect maxClients s raw).written = s.messages.map formatChat := by
    simp [connect, hgate, handleClient, hname, hfree, broadcast]
  refine ⟨hw, ?_, ?_⟩
  · intro u hmemb
    rw [hw] at hmemb
    obtain ⟨m, _, heq⟩ := List.mem_map.mp hmemb
    have hj : joinNotice u = "[INFO]: " ++ (u ++ " joined the chat\n") := rfl
    rw [hj] at heq
    exact formatChat_ne_info m _ heq
  · intro u hmemb
    rw [hw] at hmemb
    obtain ⟨m, _, heq⟩ := List.mem_map.mp hmemb
    have hl : leaveNotice u = "[INFO]: " ++ (u ++ " left the chat\n") := rfl
    rw [hl] at heq
    exact formatChat_ne_info m _ heq

/-- Witness for `replay_exactly_appended_messages`: B joins after A said `hi`;
B's replay is exactly `[2024-04-01 12:00:00][A]: hi` plus newline and contains
no join notice. -/
theorem replay_exactly_appended_messages_witness :
    (connect 10 ⟨[⟨"A", [], true⟩], [⟨⟨2024, 4, 1, 12, 0, 0⟩, "A", "hi"⟩]⟩ "B\n").written
        = ["[2024-04-01 12:00:00][A]: hi\n"] ∧
    joinNotice "A" ∉
      (connect 10 ⟨[⟨"A", [], true⟩], [⟨⟨2024, 4, 1, 12, 0, 0⟩, "A", "hi"⟩]⟩ "B\n").written := by
  have h := replay_exactly_appended_messages 10
    ⟨[⟨"A", [], true⟩], [⟨⟨2024, 4, 1, 12, 0, 0⟩, "A", "hi"⟩]⟩ "B\n"
    (by decide) (by decide) (by decide)
  refine ⟨?_, h.2.1 "A"⟩
  rw [h.1]
  decide

/-! ## Claim C5 -/

/-- Claim C5 (confirmed): during the handshake, a username that is empty after
trimming gets exactly `Invalid username. Disconnecting...` plus newline and the
connection closes with nothing registered; a username already present in the
registry gets exactly `Username already taken. Disconnecting...` plus newline,
the connection closes, and the registry — in particular the existing entry
under that username — is left completely untouched. -/
theorem handshake_invalid_and_taken_rejections (maxClients : Nat) (s : Server) (raw : String)
    (hcap : s.clients.length < maxClients - 1) :
    (trimSpace raw = "" →
      connect maxClients s raw =
        { outcome := .invalidUsername, server := s,
          written := ["Invalid username. Disconnecting...\n"], closed := true }) ∧
    (trimSpace raw ≠ "" → hasClient s (trimSpace raw) = true →
      connect maxClients s raw =
        { outcome := .usernameTaken, server := s,
          written := ["Username already taken. Disconnecting...\n"], closed := true }) := by
  have hgate : ¬ (maxClients - 1 ≤ s.clients.length) := by omega
  constructor
  · intro he
    simp [connect, hgate, handleClient, he]
  · intro hne htaken
    simp [connect, hgate, handleClient, hne, htaken]

/-- Witness for `handshake_invalid_and_taken_rejections`: whitespace-only input
is rejected as invalid; ` bob ` trims to the registered name `bob` and is
rejected as taken, with the registry unchanged in both cases. -/
theorem handshake_invalid_and_taken_rejections_witness :
    connect 10 ⟨[⟨"bob", [], true⟩], []⟩ "  \n" =
      { outcome := .invalidUsername, server := ⟨[⟨"bob", [], true⟩], []⟩,
        written := ["Invalid username. Disconnecting...\n"], closed := true } ∧
    connect 10 ⟨[⟨"bob", [], true⟩], []⟩ " bob \n" =
      { outcome := .usernameTaken, server := ⟨[⟨"bob", [], true⟩], []⟩,
        written := ["Username already taken. Disconnecting...\n"], closed := true } := by
  have h1 := handshake_invalid_and_taken_rejections 10 ⟨[⟨"bob", [], true⟩], []⟩ "  \n" (by decide)
  have h2 := handshake_invalid_and_taken_rejections 10 ⟨[⟨"bob", [], true⟩], []⟩ " bob \n" (by decide)
  exact ⟨h1.1 (by decide), h2.2 (by decide) (by decide)⟩

end NetCat

namespace NetCat

/-! ## Claim C6 -/

/-- Claim C6 counterexample: the join broadcast excludes the literal
pseudo-sender username `INFO`, not the new user.  A previously registered,
delivery-ready session that happens to be named `INFO` receives nothing when
`bob` joins, refuting the claim that every previously registered session
receives the join notice. -/
theorem join_notice_skips_session_named_info :
    (connect 10 ⟨[⟨"INFO", [], true⟩], []⟩ "bob\n").outcome = .joined "bob" ∧
    (connect 10 ⟨[⟨"INFO", [], true⟩], []⟩ "bob\n").server.clients =
      [⟨"INFO", [], true⟩, ⟨"bob", [], false⟩] := by decide

/-- Claim C6 (amended): on a successful handshake the server broadcasts exactly
`[INFO]: <username> joined the chat` plus newline with excluded pseudo-sender
`INFO`: every previously registered session whose username is not the literal
string `INFO` and whose outbound queue is ready receives it, and the newly
joined session never receives its own join notice (its outbound consumer has
not started yet, so the non-blocking enqueue onto its unbuffered channel is
dropped — its queue stays empty). -/
theorem join_notice_delivery (maxClients : Nat) (s : Server) (raw : String)
    (hcap : s.clients.length < maxClients - 1)
    (hname : trimSpace raw ≠ "")
    (hfree : hasClient s (trimSpace raw) = false) :
    (connect maxClients s raw).outcome = .joined (trimSpace raw) ∧
    (∀ (c : Client) (i : Nat), s.clients[i]? = some c → c.username ≠ "INFO" → c.ready = true →
      (connect maxClients s raw).server.clients[i]? =
        some { c with out := c.out ++ [joinNotice (trimSpace raw)] }) ∧
    (connect maxClients s raw).server.clients[s.clients.length]? =
      some { username := trimSpace raw, out := [], ready := false } := by
  have hgate : ¬ (maxClients - 1 ≤ s.clients.length) := by omega
  refine ⟨?_, ?_, ?_⟩
  · simp [connect, hgate, handleClient, hname, hfree]
  · intro c i hc hne hr
    have hlen : i < s.clients.length := (List.getElem?_eq_some_iff.mp hc).1
    have hlen2 : i < (List.map (deliver (joinNotice (trimSpace raw)) "INFO") s.clients).length := by
      simpa using hlen
    simp [connect, hgate, handleClient, hname, hfree, broadcast,
      List.getElem?_append_left hlen2, List.getElem?_map, hc, deliver, hne, hr]
  · simp [connect, hgate, handleClient, hname, hfree, broadcast,
      List.getElem?_concat_length, deliver]

/-- Witness for `join_notice_delivery`: `bob` joins while the ready session `A`
is registered; `A` receives the join notice and `bob`'s own queue is empty. -/
theorem join_notice_delivery_witness :
    (connect 10 ⟨[⟨"A", [], true⟩], []⟩ "bob\n").outcome = .joined "bob" ∧
    (connect 10 ⟨[⟨"A", [], true⟩], []⟩ "bob\n").server.clients[0]? =
      some ⟨"A", [joinNotice "bob"], true⟩ ∧
    (connect 10 ⟨[⟨"A", [], true⟩], []⟩ "bob\n").server.clients[1]? =
      some ⟨"bob", [], false⟩ := by
  have h := join_notice_delivery 10 ⟨[⟨"A", [], true⟩], []⟩ "bob\n"
    (by decide) (by decide) (by decide)
  exact ⟨h.1, h.2.1 ⟨"A", [], true⟩ 0 (by decide) (by decide) rfl, h.2.2⟩

/-! ## Claim C7 -/

/-- Claim C7 (code_bug): no session — neither the renamer nor anyone else —
ever receives a rename notice, because the successful-rename path calls
`broadcast` while `receiveMessagesFromClient` still holds `ClientsLock` and
self-deadlocks re-acquiring it: after A renames to `A2`, the registry entry has
moved but B's queue (and every queue) is unchanged and the session is blocked
forever.  Moreover the notice string the code formats is the French
`[INFO]: A a changé son nom pour A2`, not the claimed
`[INFO]: A changed their name to A2`. -/
theorem rename_notice_never_delivered :
    (handleLine ⟨[⟨"A", [], true⟩, ⟨"B", [], true⟩], []⟩ "A" ⟨2024, 4, 1, 12, 0, 0⟩ "/name A2\n" =
      { result := .deadlocked,
        server := ⟨[⟨"A2", [], true⟩, ⟨"B", [], true⟩], []⟩, reply := [], log := [] }) ∧
    renameNotice "A" "A2" = "[INFO]: A a changé son nom pour A2\n" ∧
    renameNotice "A" "A2" ≠ "[INFO]: A changed their name to A2\n" := by
  decide

/-! ## Claim C8 -/

/-- Claim C8 counterexample: the leave broadcast excludes the literal
pseudo-sender username `INFO`, so a remaining, delivery-ready session named
`INFO` receives nothing when `A` exits — refuting the claim that every
remaining registered session receives the leave notice. -/
theorem leave_notice_skips_session_named_info :
    handleLine ⟨[⟨"A", [], true⟩, ⟨"INFO", [], true⟩], []⟩ "A" ⟨2024, 4, 1, 12, 0, 0⟩ "/exit\n" =
      { result := .exited, server := ⟨[⟨"INFO", [], true⟩], []⟩, reply := [], log := [] } := by
  decide

/-- Claim C8 (amended): when an active session sends a line that is exactly
`/exit` after trimming, the session closes: its username is removed from the
registry (no remaining client carries it, so the departing session also cannot
receive the notice), and every remaining registered session whose username is
not the literal string `INFO` and whose queue is ready receives exactly
`[INFO]: <username> left the chat` plus newline. -/
theorem exit_teardown (s : Server) (u : String) (now : Timestamp) (raw : String)
    (hexit : trimSpace raw = "/exit") :
    (handleLine s u now raw).result = .exited ∧
    (∀ (c : Client), c ∈ (handleLine s u now raw).server.clients → c.username ≠ u) ∧
    (∀ (c : Client), c ∈ s.clients → c.username ≠ u → c.username ≠ "INFO" → c.ready = true →
      { c with out := c.out ++ [leaveNotice u] } ∈ (handleLine s u now raw).server.clients) := by
  have hpf : ("/name ".data.isPrefixOf ("/exit" : String).data) = false := by decide
  have hserver : (handleLine s u now raw).server.clients =
      (s.clients.filter (fun c => !(c.username = u))).map (deliver (leaveNotice u) "INFO") := by
    simp [handleLine, hexit, hpf, broadcast]
  have hres : (handleLine s u now raw).result = .exited := by
    simp [handleLine, hexit, hpf]
  refine ⟨hres, ?_, ?_⟩
  · intro c hc
    rw [hserver] at hc
    obtain ⟨c0, hc0, rfl⟩ := List.mem_map.mp hc
    have hu0 : c0.username ≠ u := by
      have := (List.mem_filter.mp hc0).2
      simpa using this
    rw [deliver_username]
    exact hu0
  · intro c hc hneu hninfo hr
    rw [hserver]
    have hcf : c ∈ s.clients.filter (fun c => !(c.username = u)) :=
      List.mem_filter.mpr ⟨hc, by simp [hneu]⟩
    have hd : deliver (leaveNotice u) "INFO" c = { c with out := c.out ++ [leaveNotice u] } := by
      simp [deliver, hninfo, hr]
    have := List.mem_map_of_mem (deliver (leaveNotice u) "INFO") hcf
    rwa [hd] at this

/-- Witness for `exit_teardown`: A sends `/exit` while B is connected; the loop
exits and B's queue receives the leave notice for A. -/
theorem exit_teardown_witness :
    (handleLine ⟨[⟨"A", [], true⟩, ⟨"B", [], true⟩], []⟩ "A" ⟨2024, 4, 1, 12, 0, 0⟩ "/exit\n").result
      = .exited ∧
    (⟨"B", [leaveNotice "A"], true⟩ : Client) ∈
      (handleLine ⟨[⟨"A", [], true⟩, ⟨"B", [], true⟩], []⟩ "A"
        ⟨2024, 4, 1, 12, 0, 0⟩ "/exit\n").server.clients := by
  have h := exit_teardown ⟨[⟨"A", [], true⟩, ⟨"B", [], true⟩], []⟩ "A" ⟨2024, 4, 1, 12, 0, 0⟩
    "/exit\n" (by decide)
  exact ⟨h.1, h.2.2 ⟨"B", [], true⟩ (by decide) (by decide) (by decide) rfl⟩

/-! ## Claim C9 -/

/-- Claim C9 (confirmed): for every recipient whose outbound queue cannot
accept the message (no ready consumer on the unbuffered channel), `broadcast`
leaves that recipient's queue unchanged (the message is dropped) and emits the
diagnostic log line `Client <name> is slow. Dropping message.` identifying that
recipient; `broadcast` is a total function of the state — it never blocks on a
slow consumer and returns to the sender without any error, however many
recipients dropped. -/
theorem broadcast_drop_and_log (s : Server) (m sender : String)
    (c : Client) (i : Nat) (hc : s.clients[i]? = some c)
    (hne : c.username ≠ sender) (hr : c.ready = false) :
    (broadcast s m sender).server.clients[i]? = some c ∧
    slowLogLine c.username ∈ (broadcast s m sender).log := by
  refine ⟨by simp [broadcast, List.getElem?_map, hc, deliver, hne, hr], ?_⟩
  have hmem : c ∈ s.clients := List.getElem?_mem hc
  have hf : c ∈ s.clients.filter (fun c => !(c.username = sender) && !c.ready) := by
    refine List.mem_filter.mpr ⟨hmem, ?_⟩
    simp [hne, hr]
  simpa [broadcast] using List.mem_map_of_mem (fun c => slowLogLine c.username) hf

/-- Witness for `broadcast_drop_and_log`: slow client `B` keeps an empty queue
and is named in the diagnostic log when `A` broadcasts. -/
theorem broadcast_drop_and_log_witness :
    (broadcast ⟨[⟨"A", [], true⟩, ⟨"B", [], false⟩], []⟩ "m" "A").server.clients[1]?
        = some ⟨"B", [], false⟩ ∧
    slowLogLine "B" ∈ (broadcast ⟨[⟨"A", [], true⟩, ⟨"B", [], false⟩], []⟩ "m" "A").log := by
  have h := broadcast_drop_and_log ⟨[⟨"A", [], true⟩, ⟨"B", [], false⟩], []⟩
    "m" "A" ⟨"B", [], false⟩ 1 (by decide) (by decide) rfl
  exact h

/-! ## Claim C10 -/

/-- Claim C10 (confirmed): a `/name <x>` command where `<x>` trims to the
session's own current username fails with the inline name-taken reply (the
absence check finds the session's own registry entry), the session stays
active, and the registry is left completely unchanged. -/
theorem rename_to_own_name_rejected (s : Server) (u : String) (now : Timestamp) (raw : String)
    (hpre : ("/name ".data.isPrefixOf (trimSpace raw).data) = true)
    (hown : trimSpace ⟨(trimSpace raw).data.drop 6⟩ = u)
    (hu : u ≠ "") (hmem : hasClient s u = true) :
    handleLine s u now raw =
      { result := .active, server := s, reply := ["Ce nom est déjà pris.\n"], log := [] } := by
  simp [handleLine, hpre, hown, hu, hmem]

/-- Witness for `rename_to_own_name_rejected`: `bob` sends `/name bob` and gets
the inline name-taken reply with the state unchanged. -/
theorem rename_to_own_name_rejected_witness :
    handleLine ⟨[⟨"bob", [], true⟩], []⟩ "bob" ⟨2024, 4, 1, 12, 0, 0⟩ "/name bob\n" =
      { result := .active, server := ⟨[⟨"bob", [], true⟩], []⟩,
        reply := ["Ce nom est déjà pris.\n"], log := [] } :=
  rename_to_own_name_rejected _ _ _ _ (by decide) (by decide) (by decide) (by decide)

end NetCat
